import Mathlib

/-!
Shallow embedding of the "Mini Resume Collector" service (src/main.py).

The service keeps an in-memory list of candidate records (`CANDIDATES_DB`)
and a directory of attachment files (`uploads/`).  We model the mutable
process state as a `ServerState` holding the record list and the list of
file paths currently persisted in the upload directory, and each endpoint
handler as a pure function from state (plus request data) to the new state
and an HTTP outcome.

Nondeterministic or external effects are passed in explicitly:
the generated `uuid` becomes the `candidate_id` argument, and the success
or failure of the underlying filesystem write/delete becomes a `Bool`
argument.  Python `float` is modelled as `Rat` (the only float operation in
the source is an order comparison, which floats and rationals agree on);
Python string `lower`/`strip`/`split`/`in` are modelled character-wise on
`List Char` (ASCII case folding, ASCII whitespace — the source is only
exercised on ASCII data).  File contents are not tracked: the attachment
store records the set of persisted paths, which is all the lifecycle
claims observe.
-/

namespace ResumeCollector

/-- Python `datetime.date`: a structurally valid calendar date.  The core
  treats `dob` as opaque, so only the three components are modelled. -/
structure PyDate where
  year : Int
  month : Nat
  day : Nat
deriving DecidableEq, Repr

/-- One candidate record, as built by `create_candidate` in src/main.py
  (the dict stored in `CANDIDATES_DB`, equivalently the `Candidate`
  pydantic model). -/
structure Candidate where
  id : String
  full_name : String
  dob : PyDate
  contact_number : String
  contact_address : String
  education_qualification : String
  graduation_year : Int
  years_of_experience : Rat
  skill_set : List String
  resume_file_path : String
deriving DecidableEq, Repr

/-- `raise HTTPException(status_code=..., detail=...)` in the source. -/
structure HTTPException where
  status_code : Nat
  detail : String
deriving DecidableEq, Repr

/-- The mutable process state: `CANDIDATES_DB` plus the set of file paths
  currently present in the upload directory. -/
structure ServerState where
  db : List Candidate
  store : List String
deriving DecidableEq, Repr

def UPLOAD_DIRECTORY : String := "uploads"

/-- `allowed_content_types` in `create_candidate`. -/
def allowed_content_types : List String :=
  ["application/pdf",
   "application/msword",
   "application/vnd.openxmlformats-officedocument.wordprocessingml.document"]

/-- Python `str.lower()`, character-wise (ASCII case folding). -/
def pyLower (s : String) : String :=
  String.mk (s.toList.map Char.toLower)

/-- Python ASCII whitespace, as stripped by `str.strip()`. -/
def isPySpace (c : Char) : Bool :=
  c == ' ' || c == '\t' || c == '\n' || c == '\r' || c == '\x0b' || c == '\x0c'

/-- Python `str.strip()`: drop leading and trailing whitespace. -/
def pyStrip (s : String) : String :=
  String.mk (((s.toList.dropWhile isPySpace).reverse.dropWhile isPySpace).reverse)

/-- Python `str.split(",")`: split on every comma, keeping empty pieces
  (auxiliary recursion carrying the current piece, reversed). -/
def pySplitCommaAux : List Char → List Char → List String
  | [], acc => [String.mk acc.reverse]
  | c :: rest, acc =>
    if c = ',' then String.mk acc.reverse :: pySplitCommaAux rest []
    else pySplitCommaAux rest (c :: acc)

def pySplitComma (s : String) : List String :=
  pySplitCommaAux s.toList []

/-- `needle in hay` on Python strings: `needle` occurs contiguously in
  `hay` (some window of `hay` of the needle's length equals the needle). -/
def charsContain (needle hay : List Char) : Bool :=
  (List.range (hay.length + 1)).any (fun i => (hay.drop i).take needle.length == needle)

def pyStrIn (needle hay : String) : Bool :=
  charsContain needle.toList hay.toList

/-- Python `str.rfind`-style search for the last index of `c` in `cs`,
  `none` when absent. -/
def rfindChar (c : Char) (cs : List Char) : Option Nat :=
  ((List.range cs.length).filter (fun i => decide (cs.get? i = some c))).getLast?

/-- `os.path.splitext(p)[1]` (posix): the extension including its dot.
  The last dot after the last slash starts the extension, unless every
  character between the slash and that dot is itself a dot (leading dots
  of a basename are not extension separators). -/
def os_path_splitext_ext (p : String) : String :=
  let cs := p.toList
  let sepIndex : Int := match rfindChar '/' cs with | some i => (i : Int) | none => -1
  let dotIndex : Int := match rfindChar '.' cs with | some i => (i : Int) | none => -1
  if sepIndex < dotIndex then
    if (List.range cs.length).any (fun i =>
        decide (sepIndex < (i : Int)) && decide ((i : Int) < dotIndex) &&
        !(decide (cs.get? i = some '.'))) then
      String.mk (cs.drop dotIndex.toNat)
    else ""
  else ""

/-- `[s.strip() for s in skill_set.split(",") if s.strip()]`
  in `create_candidate`. -/
def process_skills (skill_set : String) : List String :=
  (pySplitComma skill_set).filterMap (fun s =>
    if pyStrip s = "" then none else some (pyStrip s))

/-- The multipart form of `POST /candidates/`: every field of the request,
  with the uploaded file represented by its declared content type and its
  original filename (the bytes are not tracked, see the file comment). -/
structure CreateRequest where
  full_name : String
  dob : PyDate
  contact_number : String
  contact_address : String
  education_qualification : String
  graduation_year : Int
  years_of_experience : Rat
  skill_set : String
  resume_content_type : String
  resume_filename : String
deriving DecidableEq, Repr

/-- The `file_path` computed in `create_candidate`: the upload directory
  joined with `f"{candidate_id}{file_extension}"`, the extension derived
  from the original filename, defaulting to `".bin"` when absent. -/
def saved_file_path (req : CreateRequest) (candidate_id : String) : String :=
  let ext0 := os_path_splitext_ext req.resume_filename
  let file_extension := if ext0 = "" then ".bin" else ext0
  UPLOAD_DIRECTORY ++ "/" ++ (candidate_id ++ file_extension)

/-- The `candidate_data` dict built in `create_candidate`. -/
def candidate_data (req : CreateRequest) (candidate_id : String) : Candidate :=
  { id := candidate_id
    full_name := req.full_name
    dob := req.dob
    contact_number := req.contact_number
    contact_address := req.contact_address
    education_qualification := req.education_qualification
    graduation_year := req.graduation_year
    years_of_experience := req.years_of_experience
    skill_set := process_skills req.skill_set
    resume_file_path := saved_file_path req candidate_id }

/-- `create_candidate` in src/main.py.  `candidate_id` is the generated
  `uuid4` string; `writeOk` is whether the `open`/`copyfileobj` write of
  the attachment succeeds (its failure raises, caught and turned into a
  500).  Returns the new state and the HTTP outcome. -/
def create_candidate (st : ServerState) (req : CreateRequest)
    (candidate_id : String) (writeOk : Bool) :
    ServerState × Except HTTPException Candidate :=
  if req.resume_content_type ∈ allowed_content_types then
    if writeOk then
      ({ db := st.db ++ [candidate_data req candidate_id],
         store := st.store ++ [saved_file_path req candidate_id] },
       Except.ok (candidate_data req candidate_id))
    else
      (st, Except.error ⟨500, "Could not save file"⟩)
  else
    (st, Except.error ⟨400, "Invalid file type. Only PDF, DOC, and DOCX are allowed."⟩)

/-- `find_candidate_by_id` in src/main.py: linear scan in insertion order,
  first record whose id matches. -/
def find_candidate_by_id (db : List Candidate) (candidate_id : String) :
    Option Candidate :=
  db.find? (fun c => c.id == candidate_id)

/-- `if skill:` then filter by case-insensitive substring match against any
  entry of `skill_set`.  A `None` or empty-string `skill` is falsy in
  Python, so the filter is skipped in both cases. -/
def skill_stage (skill : Option String) (results : List Candidate) :
    List Candidate :=
  match skill with
  | none => results
  | some sk =>
    if sk = "" then results
    else results.filter (fun c =>
      c.skill_set.any (fun s => pyStrIn (pyLower sk) (pyLower s)))

/-- `if min_experience is not None:` then keep records with
  `years_of_experience >= min_experience`. -/
def min_experience_stage (min_experience : Option Rat)
    (results : List Candidate) : List Candidate :=
  match min_experience with
  | none => results
  | some m => results.filter (fun c => decide (c.years_of_experience ≥ m))

/-- `if graduation_year is not None:` then keep records with exactly that
  graduation year. -/
def graduation_year_stage (graduation_year : Option Int)
    (results : List Candidate) : List Candidate :=
  match graduation_year with
  | none => results
  | some g => results.filter (fun c => decide (c.graduation_year = g))

/-- `list_candidates` in src/main.py: the three optional filters applied in
  sequence to the current `CANDIDATES_DB` (a pure function of the record
  list and the query parameters). -/
def list_candidates (db : List Candidate) (skill : Option String)
    (min_experience : Option Rat) (graduation_year : Option Int) :
    List Candidate :=
  graduation_year_stage graduation_year
    (min_experience_stage min_experience (skill_stage skill db))

/-- `delete_candidate` in src/main.py.  `removeOk` is whether the
  `os.remove` call succeeds when attempted (an `OSError` is swallowed).
  The record equal to the one found is removed from the list
  (`CANDIDATES_DB.remove(candidate)` removes the first equal element). -/
def delete_candidate (st : ServerState) (candidate_id : String)
    (removeOk : Bool) : ServerState × Except HTTPException Unit :=
  match find_candidate_by_id st.db candidate_id with
  | none => (st, Except.error ⟨404, "Candidate not found"⟩)
  | some candidate =>
    let store1 :=
      if candidate.resume_file_path ∈ st.store then
        if removeOk then st.store.erase candidate.resume_file_path else st.store
      else st.store
    ({ db := st.db.erase candidate, store := store1 }, Except.ok ())

/-! ### Concrete fixtures used by witnesses and counterexamples -/

def dateEx : PyDate := ⟨2000, 1, 1⟩

def candBase : Candidate :=
  { id := "id-1"
    full_name := "Ada Lovelace"
    dob := dateEx
    contact_number := "555-0100"
    contact_address := "1 Main St"
    education_qualification := "BSc"
    graduation_year := 2020
    years_of_experience := 2
    skill_set := ["Python"]
    resume_file_path := "uploads/id-1.pdf" }

def stOne : ServerState := { db := [candBase], store := ["uploads/id-1.pdf"] }

def reqBadType : CreateRequest :=
  { full_name := "Grace Hopper"
    dob := dateEx
    contact_number := "555-0101"
    contact_address := "2 Main St"
    education_qualification := "PhD"
    graduation_year := 2019
    years_of_experience := 5
    skill_set := "Python, SQL"
    resume_content_type := "text/plain"
    resume_filename := "cv.txt" }

def reqGood : CreateRequest :=
  { reqBadType with
    resume_content_type := "application/pdf"
    resume_filename := "cv.pdf" }

/-- The rational number 2.9 (= 29/10), in reduced constructor form. -/
def twoPointNine : Rat := ⟨29, 10, by decide, by decide⟩

def cExp29 : Candidate :=
  { candBase with id := "id-29", years_of_experience := twoPointNine }

def cExp30 : Candidate :=
  { candBase with id := "id-30", years_of_experience := 3 }

def cNoSkills : Candidate :=
  { candBase with id := "id-0", skill_set := [] }

def cSQLGo : Candidate :=
  { candBase with id := "id-sql", skill_set := ["SQL", "Go"] }

def cPython : Candidate :=
  { candBase with id := "id-py", skill_set := ["Python"] }

/-! ### Helper lemmas -/

theorem skill_stage_sublist (skill : Option String) (r : List Candidate) :
    List.Sublist (skill_stage skill r) r := by
  cases skill with
  | none => exact List.Sublist.refl r
  | some sk =>
    simp only [skill_stage]
    by_cases h : sk = ""
    · rw [if_pos h]
    · rw [if_neg h]
      exact List.filter_sublist r

theorem min_experience_stage_sublist (m : Option Rat) (r : List Candidate) :
    List.Sublist (min_experience_stage m r) r := by
  unfold min_experience_stage
  cases m with
  | none => exact List.Sublist.refl r
  | some mv => exact List.filter_sublist r

theorem graduation_year_stage_sublist (g : Option Int) (r : List Candidate) :
    List.Sublist (graduation_year_stage g r) r := by
  unfold graduation_year_stage
  cases g with
  | none => exact List.Sublist.refl r
  | some gv => exact List.filter_sublist r

/-- Window containment agrees with list infixes: some window of `hay`
  of the needle's length equals the needle exactly when the needle occurs
  contiguously inside `hay`. -/
theorem charsContain_iff (n h : List Char) :
    charsContain n h = true ↔ n <:+: h := by
  unfold charsContain
  simp only [List.any_eq_true, List.mem_range, beq_iff_eq]
  constructor
  · rintro ⟨i, _, hEq⟩
    refine List.infix_iff_prefix_suffix.mpr ⟨h.drop i, ?_, List.drop_suffix i h⟩
    rw [← hEq]
    exact List.take_prefix n.length (h.drop i)
  · rintro ⟨s, t, hst⟩
    refine ⟨s.length, ?_, ?_⟩
    · have : h.length = s.length + n.length + t.length := by
        rw [← hst]; simp [Nat.add_assoc]
      omega
    · rw [← hst, List.append_assoc, List.drop_left, List.take_left]

/-- `pyStrip` of a comma-split list: the source's list comprehension
  (guard and map are both `strip`) equals mapping `strip` first and then
  filtering out the empty results. -/
theorem filterMap_strip_eq (l : List String) :
    l.filterMap (fun s => if pyStrip s = "" then none else some (pyStrip s)) =
      (l.map pyStrip).filter (fun t => !(t == "")) := by
  induction l with
  | nil => rfl
  | cons a tl ih =>
    by_cases hA : pyStrip a = ""
    · simp [List.filterMap_cons, List.filter_cons, hA, ih]
    · simp [List.filterMap_cons, List.filter_cons, hA, ih]

/-- The spec's description of skill normalization: split the raw string on
  commas, trim whitespace from each piece, discard the pieces that are
  empty after trimming (empty or whitespace-only), keep order and
  duplicates. -/
def spec_normalize_skills (raw : String) : List String :=
  ((pySplitComma raw).map pyStrip).filter (fun t => !(t == ""))

/-! ### Claims -/

/-- C1: a create request whose declared attachment content type is not in
  the allowed set fails with HTTP 400 ("Invalid file type…",
  `UnsupportedAttachmentType`) and leaves the state — both the record
  collection and the attachment store — unchanged. -/
theorem create_candidate_rejects_unsupported_type
    (st : ServerState) (req : CreateRequest) (candidate_id : String)
    (writeOk : Bool)
    (h : req.resume_content_type ∉ allowed_content_types) :
    create_candidate st req candidate_id writeOk =
      (st, Except.error
        ⟨400, "Invalid file type. Only PDF, DOC, and DOCX are allowed."⟩) := by
  unfold create_candidate
  rw [if_neg h]

/-- C1 witness: a concrete `text/plain` upload is rejected with 400 and the
  state is untouched. -/
theorem create_candidate_rejects_unsupported_type_witness :
    create_candidate stOne reqBadType "id-2" true =
      (stOne, Except.error
        ⟨400, "Invalid file type. Only PDF, DOC, and DOCX are allowed."⟩) :=
  create_candidate_rejects_unsupported_type stOne reqBadType "id-2" true
    (by decide)

/-- C5: when the attachment write fails, create aborts with HTTP 500
  (`StorageWriteFailure`) and the repository collection is unchanged —
  the failure never reaches the insertion step (the returned state is the
  input state, so in particular no record was inserted). -/
theorem create_candidate_storage_failure_no_insert
    (st : ServerState) (req : CreateRequest) (candidate_id : String)
    (h : req.resume_content_type ∈ allowed_content_types) :
    create_candidate st req candidate_id false =
      (st, Except.error ⟨500, "Could not save file"⟩) := by
  unfold create_candidate
  rw [if_pos h]
  rfl

/-- C5 witness: a concrete PDF upload whose write fails yields 500 and an
  unchanged state. -/
theorem create_candidate_storage_failure_no_insert_witness :
    create_candidate stOne reqGood "id-2" false =
      (stOne, Except.error ⟨500, "Could not save file"⟩) :=
  create_candidate_storage_failure_no_insert stOne reqGood "id-2" (by decide)

/-- C6: with `min_experience` present, a record is in the result exactly
  when it is in the input and its `years_of_experience` is greater than or
  equal to the threshold (inclusive boundary); concretely, `3.0` against
  records with experience `2.9` and `3.0` keeps only the `3.0` record. -/
theorem min_experience_filter_inclusive :
    (∀ (db : List Candidate) (m : Rat) (c : Candidate),
      c ∈ list_candidates db none (some m) none ↔
        c ∈ db ∧ c.years_of_experience ≥ m) ∧
    list_candidates [cExp29, cExp30] none (some 3) none = [cExp30] := by
  constructor
  · intro db m c
    simp [list_candidates, graduation_year_stage, min_experience_stage,
      skill_stage, List.mem_filter]
  · decide

/-- C7: with no filters present, `list_candidates` returns the input
  record list itself, unchanged and in order (the query is a pure function
  of the state: the state is not part of its output, so it mutates
  nothing). -/
theorem list_candidates_no_filters_id (db : List Candidate) :
    list_candidates db none none none = db := rfl

/-- C2 counterexample: the claim fails for the present empty skill string.
  `skill=""` is falsy in Python, so the filter is skipped: a record whose
  `skill_set` is empty is still returned, though the claim says a record
  with an empty `skill_set` passes no present skill filter. -/
theorem skill_filter_empty_present_counterexample :
    list_candidates [cNoSkills] (some "") none none = [cNoSkills] ∧
    cNoSkills.skill_set = [] :=
  ⟨rfl, rfl⟩

/-- C2 amended: for every query whose skill filter is present and
  non-empty, a record is in the result exactly when it is in the input and
  some entry of its `skill_set` contains the skill as a case-insensitive
  substring (so a record with empty `skill_set` never passes); a present
  empty skill string is treated as an absent filter. -/
theorem skill_filter_nonempty_iff (db : List Candidate) (sk : String)
    (hsk : sk ≠ "") (c : Candidate) :
    c ∈ list_candidates db (some sk) none none ↔
      c ∈ db ∧ ∃ s ∈ c.skill_set,
        (pyLower sk).toList <:+: (pyLower s).toList := by
  simp only [list_candidates, graduation_year_stage, min_experience_stage,
    skill_stage]
  rw [if_neg hsk]
  simp [List.mem_filter, List.any_eq_true, pyStrIn, charsContain_iff]

/-- C2 witness: the spec's own example — `skill="sql"` against a record
  with skills `["SQL", "Go"]` — instantiates the amended theorem: the
  record is returned because "sql" occurs case-insensitively in "SQL". -/
theorem skill_filter_nonempty_iff_witness :
    cSQLGo ∈ list_candidates [cSQLGo, cPython] (some "sql") none none :=
  (skill_filter_nonempty_iff [cSQLGo, cPython] "sql" (by decide) cSQLGo).mpr
    ⟨by decide, "SQL", by decide, by decide⟩

/-- C3: the stored `skill_set` is the comma-split of the raw string with
  each piece trimmed, empty and whitespace-only pieces discarded, order
  preserved and duplicates kept; the input `" Python, C++ , SQL,"` yields
  exactly `["Python", "C++", "SQL"]`, and duplicates pass through. -/
theorem process_skills_correct :
    (∀ raw : String, process_skills raw = spec_normalize_skills raw) ∧
    process_skills " Python, C++ , SQL," = ["Python", "C++", "SQL"] ∧
    process_skills "SQL,SQL" = ["SQL", "SQL"] :=
  ⟨fun raw => filterMap_strip_eq (pySplitComma raw), by decide, by decide⟩

/-- The record `create_candidate` builds from `reqGood` under the
  colliding id "dup-id" (used by the C4 counterexample). -/
def cDup : Candidate :=
  { candBase with id := "dup-id", resume_file_path := "uploads/dup-id.pdf" }

def stDup : ServerState := { db := [cDup], store := ["uploads/dup-id.pdf"] }

def cDupNew : Candidate :=
  { id := "dup-id"
    full_name := "Grace Hopper"
    dob := dateEx
    contact_number := "555-0101"
    contact_address := "2 Main St"
    education_qualification := "PhD"
    graduation_year := 2019
    years_of_experience := 5
    skill_set := ["Python", "SQL"]
    resume_file_path := "uploads/dup-id.pdf" }

/-- C4 counterexample: insertion performs no duplicate-id check.  Creating
  a record whose generated id equals the id of a record already in the
  collection does not fail with any error — it succeeds and leaves two
  records with the same id in the collection. -/
theorem insert_duplicate_id_counterexample :
    (create_candidate stDup reqGood "dup-id" true).1 =
      { db := [cDup, cDupNew],
        store := ["uploads/dup-id.pdf", "uploads/dup-id.pdf"] } ∧
    (create_candidate stDup reqGood "dup-id" true).2 = Except.ok cDupNew ∧
    cDup.id = cDupNew.id :=
  ⟨by decide, rfl, rfl⟩

/-- C4 amended: insertion is an unconditional append with no duplicate-id
  check — even when the id already occurs in the collection, create
  succeeds and appends the new record (whose id is the colliding one)
  after the existing ones. -/
theorem insert_appends_even_on_collision
    (st : ServerState) (req : CreateRequest) (candidate_id : String)
    (hct : req.resume_content_type ∈ allowed_content_types)
    (_hdup : candidate_id ∈ st.db.map Candidate.id) :
    create_candidate st req candidate_id true =
      ({ db := st.db ++ [candidate_data req candidate_id],
         store := st.store ++ [saved_file_path req candidate_id] },
       Except.ok (candidate_data req candidate_id)) ∧
    (candidate_data req candidate_id).id = candidate_id := by
  unfold create_candidate
  rw [if_pos hct]
  exact ⟨rfl, rfl⟩

/-- C4 amended witness: the concrete collision from the counterexample
  instantiates the amended theorem. -/
theorem insert_appends_even_on_collision_witness :
    create_candidate stDup reqGood "dup-id" true =
      ({ db := stDup.db ++ [candidate_data reqGood "dup-id"],
         store := stDup.store ++ [saved_file_path reqGood "dup-id"] },
       Except.ok (candidate_data reqGood "dup-id")) ∧
    (candidate_data reqGood "dup-id").id = "dup-id" :=
  insert_appends_even_on_collision stDup reqGood "dup-id" (by decide)
    (by decide)

/-- C10: the query result is always a sublist of the input — only input
  elements, in input order, with no duplication — for every combination of
  present filters. -/
theorem list_candidates_sublist (db : List Candidate) (skill : Option String)
    (m : Option Rat) (g : Option Int) :
    List.Sublist (list_candidates db skill m g) db :=
  ((graduation_year_stage_sublist g _).trans
    (min_experience_stage_sublist m _)).trans (skill_stage_sublist skill db)

/-- C8: deleting an id that matches no record in the collection yields
  HTTP 404 (`NotFound`) and returns the state — collection and attachment
  store — unchanged. -/
theorem delete_candidate_not_found
    (st : ServerState) (candidate_id : String) (removeOk : Bool)
    (h : ∀ c ∈ st.db, c.id ≠ candidate_id) :
    delete_candidate st candidate_id removeOk =
      (st, Except.error ⟨404, "Candidate not found"⟩) := by
  have hfind : find_candidate_by_id st.db candidate_id = none := by
    unfold find_candidate_by_id
    rw [List.find?_eq_none]
    intro c hc
    simpa using h c hc
  unfold delete_candidate
  rw [hfind]

/-- C8 witness: deleting the absent id "missing" from a one-record state
  yields 404 and the identical state. -/
theorem delete_candidate_not_found_witness :
    delete_candidate stOne "missing" true =
      (stOne, Except.error ⟨404, "Candidate not found"⟩) :=
  delete_candidate_not_found stOne "missing" true (by decide)

/-- C9: when the id is present (ids being unique, per the repository
  invariant), delete succeeds — the outcome is `ok` for every value of the
  file-removal flag, so a failed or impossible attachment deletion never
  blocks record removal — and no record with that id remains in the
  collection afterwards. -/
theorem delete_candidate_removes_record
    (st : ServerState) (candidate_id : String) (removeOk : Bool)
    (hmem : ∃ c ∈ st.db, c.id = candidate_id)
    (hnodup : (st.db.map Candidate.id).Nodup) :
    (delete_candidate st candidate_id removeOk).2 = Except.ok () ∧
    ∀ c ∈ (delete_candidate st candidate_id removeOk).1.db,
      c.id ≠ candidate_id := by
  obtain ⟨c0, hc0mem, hc0id⟩ := hmem
  have hfindsome :
      ∃ cand, find_candidate_by_id st.db candidate_id = some cand := by
    cases hfind : find_candidate_by_id st.db candidate_id with
    | some cand => exact ⟨cand, rfl⟩
    | none =>
      exfalso
      have hnone := List.find?_eq_none.mp hfind c0 hc0mem
      simp [hc0id] at hnone
  obtain ⟨cand, hfind⟩ := hfindsome
  have hcandmem : cand ∈ st.db := List.mem_of_find?_eq_some hfind
  have hcandid : cand.id = candidate_id := by
    have hp := List.find?_some hfind
    simpa using hp
  have hdbnodup : st.db.Nodup := List.Nodup.of_map _ hnodup
  unfold delete_candidate
  rw [hfind]
  refine ⟨rfl, ?_⟩
  intro c hc hcid
  have hc' : c ≠ cand ∧ c ∈ st.db :=
    (List.Nodup.mem_erase_iff hdbnodup).mp hc
  exact hc'.1
    (List.inj_on_of_nodup_map hnodup hc'.2 hcandmem (hcid.trans hcandid.symm))

/-- C9 witness: deleting the present id "id-1" succeeds even with the
  file-removal flag false (the swallowed `OSError` case), and the record
  is gone from the collection. -/
theorem delete_candidate_removes_record_witness :
    (delete_candidate stOne "id-1" false).2 = Except.ok () ∧
    (delete_candidate stOne "id-1" false).1.db = [] :=
  ⟨(delete_candidate_removes_record stOne "id-1" false
      ⟨candBase, by decide, by decide⟩ (by decide)).1,
   by decide⟩

end ResumeCollector
